import Mathlib

/-!
Verification of the "weather" analytics pipeline (Go sources) against its
natural-language specification.  The Go code is shallowly embedded: SQL
numeric arithmetic becomes exact rational arithmetic (ℚ), machine counters
become ℕ, fallible operations become Option/Except, and the mutex-serialized
batch accumulator becomes a step function over event sequences.
-/

/-! ## Engagement scorer (go-weather/src/main.go, getLeadEngagementScore) -/

/-- SQL LEAST of two values. -/
def leastQ (a b : ℚ) : ℚ := if a ≤ b then a else b

/-- SQL GREATEST of two values. -/
def greatestQ (a b : ℚ) : ℚ := if a ≤ b then b else a

/-- Rounding of a rational to the nearest integer, halves away from zero:
the behaviour of PostgreSQL ROUND on numeric values. -/
def roundHalfAway (q : ℚ) : ℤ :=
  if q < 0 then -Int.floor (-q + 1/2) else Int.floor (q + 1/2)

/-- PostgreSQL ROUND(x, 2): round to two decimal places, halves away from
zero. -/
def round2 (q : ℚ) : ℚ := (roundHalfAway (q * 100) : ℚ) / 100

/-- The score CASE expression of the getLeadEngagementScore SQL query
(go-weather/src/main.go lines 1473-1491).  Inputs: view counts of the three
monthly windows (month 1 oldest, month 3 most recent) and the averaged
time-spent / reading-rate of each window.  SQL LEAST/GREATEST become
min/max; the views are SUMs of non-negative counts, hence ℕ, so the SQL
condition views_month_3 >= 0 of the first WHEN arm is always true.
First, the weighted normalized delta of the ELSE arm (rounding applied by
the caller). -/
def weightedDelta (v1 v2 v3 : ℕ) (t1 t2 t3 r1 r2 r3 : ℚ) : ℚ :=
  (0.2 * ((v2 : ℚ) - (v1 : ℚ)) +
   0.5 * ((v3 : ℚ) - (v2 : ℚ)) +
   0.1 * (t2 - t1) + 0.3 * (t3 - t2) +
   0.1 * (r2 - r1) + 0.3 * (r3 - r2)) / ((v3 : ℚ) + (v2 : ℚ) + (v1 : ℚ))

/-- The full CASE expression computing the engagement score. -/
def engagementScore (v1 v2 v3 : ℕ) (t1 t2 t3 r1 r2 r3 : ℚ) : ℚ :=
  if v1 = 0 ∧ v2 = 0 then 0
  else if v2 = 0 ∧ v3 = 0 then -1
  else leastQ 1 (greatestQ (-1) (round2 (weightedDelta v1 v2 v3 t1 t2 t3 r1 r2 r3)))

/-! ## Rollup upsert merge (unnamed/part_002 lines 409-417 and
unnamed/part_003 lines 193-207) -/

/-- A row of the article_metrics / lead_engagement_metrics rollup tables:
the columns touched by the ON CONFLICT DO UPDATE clause. -/
structure RollupRow where
  view_count : ℕ
  avg_time_spent : ℚ
  avg_reading_rate : ℚ
  deriving DecidableEq, Repr

/-- The ON CONFLICT DO UPDATE SET clause shared by the article_metrics and
lead_engagement_metrics upserts.  In PostgreSQL the table-qualified names of
the SET expressions denote the existing (old) row and EXCLUDED the incoming
row, and every right-hand side is evaluated against the old row, so the
average divides by the sum of the old and the new counts. -/
def mergeRollupOnConflict (old incoming : RollupRow) : RollupRow where
  view_count := old.view_count + incoming.view_count
  avg_time_spent :=
    (old.avg_time_spent + incoming.avg_time_spent) /
      ((old.view_count : ℚ) + (incoming.view_count : ℚ))
  avg_reading_rate :=
    (old.avg_reading_rate + incoming.avg_reading_rate) /
      ((old.view_count : ℚ) + (incoming.view_count : ℚ))

/-- Modelled from the spec: the count-weighted incremental mean that §3 of
the specification prescribes for the rollup merge, stated for comparison
with mergeRollupOnConflict (which embeds the actual SQL). -/
def avgWeightedSpec (oldAvg : ℚ) (oldCount : ℕ) (newAvg : ℚ) (newCount : ℕ) : ℚ :=
  (oldAvg * oldCount + newAvg * newCount) / ((oldCount : ℚ) + (newCount : ℚ))

/-! ## Batch accumulator (BatchProcessor in go-page_subscription/src/main.go,
unnamed/part_005 and unnamed/part_006; the three copies are identical).
All calls to AddMessage and all timer-loop bodies run under batchMutex, so
an execution is a serialized sequence of add and tick events; the model
records the buffer and the history of flushed batches. -/

structure BatchProcessor (α : Type) where
  messages : List α
  maxBatchSize : ℕ
  flushed : List (List α)
  deriving DecidableEq, Repr

def NewBatchProcessor (α : Type) (maxBatchSize : ℕ) : BatchProcessor α :=
  { messages := [], maxBatchSize := maxBatchSize, flushed := [] }

/-- The flush side of processBatch: early return on an empty buffer,
otherwise the whole buffer is handed over as one batch and the buffer is
cleared (messages = messages[:0]) regardless of per-message outcome. -/
def processBatchFlush {α : Type} (bp : BatchProcessor α) : BatchProcessor α :=
  if bp.messages.isEmpty then bp
  else { bp with messages := [], flushed := bp.flushed ++ [bp.messages] }

/-- AddMessage: append under the mutex, then flush synchronously when the
buffer has reached maxBatchSize. -/
def AddMessage {α : Type} (bp : BatchProcessor α) (m : α) : BatchProcessor α :=
  let bp1 := { bp with messages := bp.messages ++ [m] }
  if bp.maxBatchSize ≤ bp1.messages.length then processBatchFlush bp1 else bp1

/-- One firing of the StartBatchTimer loop: under the mutex, flush when the
buffer is non-empty; afterwards the timer is re-armed (no state here). -/
def timerTick {α : Type} (bp : BatchProcessor α) : BatchProcessor α :=
  if 0 < bp.messages.length then processBatchFlush bp else bp

inductive AccEvent (α : Type) where
  | add (m : α)
  | tick
  deriving DecidableEq, Repr

def accStep {α : Type} (bp : BatchProcessor α) : AccEvent α → BatchProcessor α
  | .add m => AddMessage bp m
  | .tick => timerTick bp

def runAcc {α : Type} (bp : BatchProcessor α) (es : List (AccEvent α)) : BatchProcessor α :=
  es.foldl accStep bp

/-- The messages delivered by a sequence of events, in arrival order. -/
def addedMessages {α : Type} (es : List (AccEvent α)) : List α :=
  es.filterMap fun e => match e with | .add m => some m | .tick => none

/-! ## Lead-event consumer (unnamed/part_005) and the collector handler that
feeds it (go-weather/src/main.go, collectLeadEventDataHandler).  The geo
database is a parameter; a None result models an error return from
ipDb.City. -/

structure IPLocation where
  Country : String
  City : String
  deriving DecidableEq, Repr

structure LeadEventDataPubSub where
  brand : String
  uuid : String
  lead_uuid : String
  name : String
  page_type : String
  page_language : String
  device : String
  url : String
  referrer : String
  referrer_type : String
  relevant_referrer : String
  metas : String
  consent : Bool
  ip : String
  deriving DecidableEq, Repr

/-- getIpLocation (unnamed/part_005 lines 228-243): on a lookup error the
function calls log.Fatal, which terminates the whole process; the error
value models that exit. -/
def getIpLocation (geoDb : String → Option IPLocation) (ipAddress : String) :
    Except Unit IPLocation :=
  match geoDb ipAddress with
  | none => .error ()
  | some record => .ok record

/-- A row of the analytical lead_event table, as assembled by processBatch. -/
structure LeadEventRow where
  brand : String
  uuid : String
  lead_uuid : String
  name : String
  page_type : String
  page_language : String
  device : String
  url : String
  referrer : String
  referrer_type : String
  relevant_referrer : String
  metas : String
  consent : Bool
  ip : String
  location_country : String
  location_city : String
  deriving DecidableEq, Repr

def mkLeadEventRow (d : LeadEventDataPubSub) (locationCountry locationCity : String) :
    LeadEventRow :=
  { brand := d.brand, uuid := d.uuid, lead_uuid := d.lead_uuid, name := d.name,
    page_type := d.page_type, page_language := d.page_language, device := d.device,
    url := d.url, referrer := d.referrer, referrer_type := d.referrer_type,
    relevant_referrer := d.relevant_referrer, metas := d.metas,
    consent := d.consent, ip := d.ip,
    location_country := locationCountry, location_city := locationCity }

inductive LeadMsgStep where
  | nackedUnmarshal
  | fatalLookup
  | staged (row : LeadEventRow)
  deriving DecidableEq, Repr

/-- The per-message body of the lead-event processBatch loop (unnamed/part_005
lines 138-207): unmarshal failure nacks and continues; the geo lookup runs
only when the event name is not page_behavior and the IP is non-empty, and a
lookup error is fatal (getIpLocation exits the process); otherwise a row is
staged, with empty location fields when the lookup was skipped.  The payload
argument is None when json.Unmarshal fails. -/
def processLeadMessage (geoDb : String → Option IPLocation)
    (payload : Option LeadEventDataPubSub) : LeadMsgStep :=
  match payload with
  | none => .nackedUnmarshal
  | some d =>
    if d.name ≠ "page_behavior" ∧ d.ip ≠ "" then
      match getIpLocation geoDb d.ip with
      | .error _ => .fatalLookup
      | .ok loc => .staged (mkLeadEventRow d loc.Country loc.City)
    else .staged (mkLeadEventRow d "" "")

/-- The lead-event batch loop: returns the staged rows (in order) and the
number of nacked messages, or an error when the process was terminated by a
fatal geo-lookup failure, in which case the remaining messages of the batch
were never processed and nothing was nacked for the failing message. -/
def processLeadBatch (geoDb : String → Option IPLocation) :
    List (Option LeadEventDataPubSub) → Except Unit (List LeadEventRow × ℕ)
  | [] => .ok ([], 0)
  | msg :: rest =>
    match processLeadMessage geoDb msg with
    | .fatalLookup => .error ()
    | .nackedUnmarshal => (processLeadBatch geoDb rest).map fun p => (p.1, p.2 + 1)
    | .staged row => (processLeadBatch geoDb rest).map fun p => (row :: p.1, p.2)

/-- The IP the collector attaches to the published message
(go-weather/src/main.go lines 605-608): the client IP only when the consent
flag is set, the empty string otherwise. -/
def collectClientIp (consent : Bool) (requestIp : String) : String :=
  if consent then requestIp else ""

/-- The message publishLeadEventData puts on the lead_event topic: every
field of the collected event, with IP as chosen by the consent check. -/
def publishedLeadEvent (d : LeadEventDataPubSub) (requestIp : String) :
    LeadEventDataPubSub :=
  { d with ip := collectClientIp d.consent requestIp }

/-! ## Page consumer (go-page_subscription/src/main.go).  Times are modelled
at second precision as integers, since the change detector compares the
modification dates through the second-precision format 2006-01-02T15:04:05Z
with a nil date rendered as the empty string; on Option ℤ that comparison is
plain equality.  The locale parser, the content-language detector, and the
success of each database call are parameters. -/

structure PageDataPubSub where
  datetime : ℤ
  brand : String
  url : String
  type : String
  language : String
  publication_date : ℤ
  modification_date : Option ℤ
  title : String
  description : String
  content : String
  sectionName : String
  sub_section : Option String
  image : Option String
  is_paid : Bool
  deriving DecidableEq, Repr

/-- The relational page row in the fields getPageFromDB scans (the brand is
the lookup key, not a scanned column). -/
structure PageData where
  url : String
  type : String
  language : String
  publication_date : ℤ
  modification_date : Option ℤ
  title : String
  description : String
  content : String
  sectionName : String
  sub_section : Option String
  image : Option String
  is_paid : Bool
  deriving DecidableEq, Repr

/-- The row the INSERT INTO page statement creates from a message. -/
def pageRowFromMsg (d : PageDataPubSub) : PageData :=
  { url := d.url, type := d.type, language := d.language,
    publication_date := d.publication_date, modification_date := d.modification_date,
    title := d.title, description := d.description, content := d.content,
    sectionName := d.sectionName, sub_section := d.sub_section, image := d.image,
    is_paid := d.is_paid }

/-- The UPDATE page statement: only the eight listed columns change; url,
type, language and publication_date keep their stored values. -/
def applyPageUpdate (old : PageData) (d : PageDataPubSub) : PageData :=
  { old with
    modification_date := d.modification_date, title := d.title,
    description := d.description, content := d.content, sectionName := d.sectionName,
    sub_section := d.sub_section, image := d.image, is_paid := d.is_paid }

inductive PageAction where
  | nackedUnmarshal
  | nackedLocaleParse
  | ackedLanguageMismatch
  | nackedLookup
  | nackedExec
  | staged (isInsert : Bool) (newRow : PageData) (bqRow : PageDataPubSub)
  | noOpSilent
  deriving DecidableEq, Repr

/-- The per-message body of the page processBatch loop
(go-page_subscription/src/main.go lines 183-367) up to and including the
change detection: parseLocaleBase models language.Parse followed by Base,
detectLang models whatlanggo.Detect with Iso6391, lookupOk the success of
getPageFromDB and txExecOk the success of the tx.Exec statement.  A None
payload is a json.Unmarshal failure.  In the found-row case an update is
staged exactly when the formatted modification dates differ; otherwise the
loop only logs and moves on (noOpSilent). -/
def decidePageMessage (parseLocaleBase : String → Option String)
    (detectLang : String → String) (lookupOk txExecOk : Bool)
    (payload : Option PageDataPubSub) (dbRow : Option PageData) : PageAction :=
  match payload with
  | none => .nackedUnmarshal
  | some d =>
    match parseLocaleBase d.language with
    | none => .nackedLocaleParse
    | some pageLanguage =>
      if detectLang d.content ≠ pageLanguage then .ackedLanguageMismatch
      else if ¬ lookupOk then .nackedLookup
      else
        match dbRow with
        | none =>
          if txExecOk then .staged true (pageRowFromMsg d) d else .nackedExec
        | some page =>
          if page.modification_date ≠ d.modification_date then
            if txExecOk then .staged false (applyPageUpdate page d) d
            else .nackedExec
          else .noOpSilent

inductive AckStatus where
  | acked
  | nacked
  | leftPending
  deriving DecidableEq, Repr

/-- Outcome of delivering one page message through a whole processBatch
cycle: the relational row for the message key afterwards, the rows handed to
the analytical bulk inserter, the rows the analytical table actually gained,
and the terminal action on the message. -/
structure PageDelivery where
  db : Option PageData
  stagedRows : List PageDataPubSub
  appended : List PageDataPubSub
  ack : AckStatus
  deriving DecidableEq, Repr

/-- One page message through processBatch (a batch containing this message):
per-message phase as decidePageMessage, then the batch tail
(go-page_subscription/src/main.go lines 369-396): tx.Commit whose failure is
only logged, the bulk insert of every staged row performed unconditionally
afterwards, and the ack loop over staged messages run exactly when the bulk
insert succeeded.  Nack decisions were already taken per message; staged
messages are never nacked in the tail. -/
def deliverPageMessage (parseLocaleBase : String → Option String)
    (detectLang : String → String) (lookupOk txExecOk commitOk bqOk : Bool)
    (payload : Option PageDataPubSub) (dbRow : Option PageData) : PageDelivery :=
  match decidePageMessage parseLocaleBase detectLang lookupOk txExecOk payload dbRow with
  | .staged _ newRow d =>
    { db := if commitOk then some newRow else dbRow,
      stagedRows := [d],
      appended := if bqOk then [d] else [],
      ack := if bqOk then .acked else .leftPending }
  | .noOpSilent =>
    { db := dbRow, stagedRows := [], appended := [], ack := .leftPending }
  | .ackedLanguageMismatch =>
    { db := dbRow, stagedRows := [], appended := [], ack := .acked }
  | _ =>
    { db := dbRow, stagedRows := [], appended := [], ack := .nacked }

/-! ## User consumer (unnamed/part_006), same batched dual-write shape as
the page consumer; change detection compares the is_subscriber flag, and the
UPDATE statement runs through db.Exec, outside the transaction. -/

structure UserDataPubSub where
  datetime : ℤ
  brand : String
  lead_uuid : String
  user_id : String
  email : String
  first_name : String
  last_name : String
  is_subscriber : Bool
  deriving DecidableEq, Repr

structure UserData where
  user_id : String
  email : String
  first_name : String
  last_name : String
  is_subscriber : Bool
  deriving DecidableEq, Repr

def userRowFromMsg (d : UserDataPubSub) : UserData :=
  { user_id := d.user_id, email := d.email, first_name := d.first_name,
    last_name := d.last_name, is_subscriber := d.is_subscriber }

inductive UserAction where
  | nackedUnmarshal
  | nackedLookup
  | nackedExec
  | staged (isInsert : Bool) (newRow : UserData) (bqRow : UserDataPubSub)
  | noOpSilent
  deriving DecidableEq, Repr

/-- The per-message body of the user processBatch loop (unnamed/part_006
lines 146-249). -/
def decideUserMessage (lookupOk execOk : Bool) (payload : Option UserDataPubSub)
    (dbRow : Option UserData) : UserAction :=
  match payload with
  | none => .nackedUnmarshal
  | some d =>
    if ¬ lookupOk then .nackedLookup
    else
      match dbRow with
      | none =>
        if execOk then .staged true (userRowFromMsg d) d else .nackedExec
      | some user =>
        if user.is_subscriber ≠ d.is_subscriber then
          if execOk then .staged false (userRowFromMsg d) d else .nackedExec
        else .noOpSilent

structure UserDelivery where
  db : Option UserData
  stagedRows : List UserDataPubSub
  appended : List UserDataPubSub
  ack : AckStatus
  deriving DecidableEq, Repr

/-- One user message through processBatch (unnamed/part_006 lines 123-278):
as for the page consumer, tx.Commit failure is only logged and the bulk
insert plus ack loop run regardless; the UPDATE path took effect through
db.Exec immediately, outside the transaction, so only the INSERT path is
gated on commit success. -/
def deliverUserMessage (lookupOk execOk commitOk bqOk : Bool)
    (payload : Option UserDataPubSub) (dbRow : Option UserData) : UserDelivery :=
  match decideUserMessage lookupOk execOk payload dbRow with
  | .staged isInsert newRow d =>
    { db := if isInsert then (if commitOk then some newRow else dbRow) else some newRow,
      stagedRows := [d],
      appended := if bqOk then [d] else [],
      ack := if bqOk then .acked else .leftPending }
  | .noOpSilent =>
    { db := dbRow, stagedRows := [], appended := [], ack := .leftPending }
  | _ =>
    { db := dbRow, stagedRows := [], appended := [], ack := .nacked }

/-! ## Concrete fixtures used by counterexamples and witnesses -/

def localeBaseEn : String → Option String := fun _ => some "en"

def detectEn : String → String := fun _ => "en"

def geoDbFailing : String → Option IPLocation := fun _ => none

def geoDbParis : String → Option IPLocation := fun _ => some { Country := "France", City := "Paris" }

def samplePageMsg : PageDataPubSub :=
  { datetime := 0, brand := "brand1", url := "https://b1/a1", type := "article",
    language := "en", publication_date := 100, modification_date := some 200,
    title := "t", description := "d", content := "body", sectionName := "s",
    sub_section := none, image := none, is_paid := false }

def sampleUserMsg : UserDataPubSub :=
  { datetime := 0, brand := "brand1", lead_uuid := "lead-1", user_id := "u1",
    email := "e", first_name := "f", last_name := "l", is_subscriber := true }

def sampleLeadMsg : LeadEventDataPubSub :=
  { brand := "brand1", uuid := "ev-1", lead_uuid := "lead-1", name := "page_view",
    page_type := "article", page_language := "en", device := "desktop",
    url := "https://b1/a1", referrer := "", referrer_type := "direct",
    relevant_referrer := "", metas := "\x7b\x7d", consent := true, ip := "1.2.3.4" }

def sampleLeadMsgNoConsent : LeadEventDataPubSub :=
  { sampleLeadMsg with consent := false }

def sampleLeadMsgNoIp : LeadEventDataPubSub :=
  { sampleLeadMsg with uuid := "ev-2", ip := "" }

/-! ## Theorems -/

/-- Evaluation rule for roundHalfAway at a non-negative argument. -/
theorem roundHalfAway_nonneg_eq (q : ℚ) (n : ℤ) (h0 : ¬ q < 0)
    (h1 : (n : ℚ) ≤ q + 1/2) (h2 : q + 1/2 < n + 1) : roundHalfAway q = n := by
  unfold roundHalfAway
  rw [if_neg h0, Int.floor_eq_iff.mpr ⟨h1, by exact_mod_cast h2⟩]

/-- Evaluation rule for roundHalfAway at a negative argument. -/
theorem roundHalfAway_neg_eq (q : ℚ) (n : ℤ) (h0 : q < 0)
    (h1 : (n : ℚ) ≤ -q + 1/2) (h2 : -q + 1/2 < n + 1) : roundHalfAway q = -n := by
  unfold roundHalfAway
  rw [if_pos h0, Int.floor_eq_iff.mpr ⟨h1, by exact_mod_cast h2⟩]

/-- Concrete evaluation used in several statements: 26/3 printed to two
decimal places is 8.67. -/
theorem round2_26_3 : round2 (26/3) = 867/100 := by
  unfold round2
  rw [roundHalfAway_nonneg_eq (26/3 * 100) 867 (by norm_num) (by norm_num) (by norm_num)]
  norm_num

/-- Concrete evaluation: -1/4 is unchanged by two-decimal rounding. -/
theorem round2_neg_quarter : round2 (-1/4) = -1/4 := by
  unfold round2
  rw [roundHalfAway_neg_eq (-1/4 * 100) 25 (by norm_num) (by norm_num) (by norm_num)]
  norm_num

/-- The clamp LEAST(1, GREATEST(-1, x)) always lands in the interval. -/
theorem leastQ_greatestQ_bounds (x : ℚ) :
    -1 ≤ leastQ 1 (greatestQ (-1) x) ∧ leastQ 1 (greatestQ (-1) x) ≤ 1 := by
  unfold leastQ greatestQ
  split_ifs <;> constructor <;> linarith

/-- Claim C3: the rollup upsert conflict merge adds view counts and sets
each average to (old_avg + new_avg) / (old_count + new_count); in particular
merging an existing row (view_count 10, avg_time_spent 50) with an incoming
row (view_count 5, avg_time_spent 80) yields view_count 15 and
avg_time_spent (50+80)/15 = 26/3, which prints as 8.67. -/
theorem C3_rollup_merge_formula :
    (∀ old incoming : RollupRow,
      (mergeRollupOnConflict old incoming).view_count =
        old.view_count + incoming.view_count ∧
      (mergeRollupOnConflict old incoming).avg_time_spent =
        (old.avg_time_spent + incoming.avg_time_spent) /
          ((old.view_count : ℚ) + (incoming.view_count : ℚ)) ∧
      (mergeRollupOnConflict old incoming).avg_reading_rate =
        (old.avg_reading_rate + incoming.avg_reading_rate) /
          ((old.view_count : ℚ) + (incoming.view_count : ℚ))) ∧
    (mergeRollupOnConflict ⟨10, 50, 50⟩ ⟨5, 80, 80⟩).view_count = 15 ∧
    (mergeRollupOnConflict ⟨10, 50, 50⟩ ⟨5, 80, 80⟩).avg_time_spent = 26/3 ∧
    round2 (26/3) = 867/100 := by
  refine ⟨fun old incoming => ⟨rfl, rfl, rfl⟩, rfl, ?_, round2_26_3⟩
  show ((50 : ℚ) + 80) / (((10 : ℕ) : ℚ) + ((5 : ℕ) : ℚ)) = 26/3
  norm_num

/-- Claim C4 is false on the code: at the spec example the SQL merge gives
(50+80)/(10+5) = 26/3 ≈ 8.67, while the count-weighted mean of claim C4
gives (50·10+80·5)/15 = 60, and the two differ. -/
theorem C4_counterexample :
    (mergeRollupOnConflict ⟨10, 50, 50⟩ ⟨5, 80, 80⟩).avg_time_spent = 26/3 ∧
    avgWeightedSpec 50 10 80 5 = 60 ∧
    ((26 : ℚ)/3) ≠ 60 := by
  refine ⟨?_, ?_, by norm_num⟩
  · show ((50 : ℚ) + 80) / (((10 : ℕ) : ℚ) + ((5 : ℕ) : ℚ)) = 26/3
    norm_num
  · show ((50 : ℚ) * ((10 : ℕ) : ℚ) + 80 * ((5 : ℕ) : ℚ)) / (((10 : ℕ) : ℚ) + ((5 : ℕ) : ℚ)) = 60
    norm_num

/-- Claim C4 amended: view_count accumulates by simple sum, but the merged
average is (old_avg + new_avg) / (old_count + new_count), not the
count-weighted mean, from which it differs at the spec example. -/
theorem C4_amended_merge_not_weighted :
    (∀ old incoming : RollupRow,
      (mergeRollupOnConflict old incoming).view_count =
        old.view_count + incoming.view_count ∧
      (mergeRollupOnConflict old incoming).avg_time_spent =
        (old.avg_time_spent + incoming.avg_time_spent) /
          ((old.view_count : ℚ) + (incoming.view_count : ℚ))) ∧
    (mergeRollupOnConflict ⟨10, 50, 50⟩ ⟨5, 80, 80⟩).avg_time_spent ≠
      avgWeightedSpec 50 10 80 5 := by
  refine ⟨fun old incoming => ⟨rfl, rfl⟩, ?_⟩
  show ((50 : ℚ) + 80) / (((10 : ℕ) : ℚ) + ((5 : ℕ) : ℚ)) ≠
    ((50 : ℚ) * ((10 : ℕ) : ℚ) + 80 * ((5 : ℕ) : ℚ)) / (((10 : ℕ) : ℚ) + ((5 : ℕ) : ℚ))
  norm_num

/-- Claim C6 is false on the code at its own example: with views (5,5,0)
(and all time-spent and reading-rate averages zero) the stalled WHEN arm
does not fire, because it requires views_month_2 = 0 and views_month_3 = 0;
the weighted-delta arm gives -1/4, not -1. -/
theorem C6_counterexample :
    engagementScore 5 5 0 0 0 0 0 0 0 = -1/4 ∧ ((-1 : ℚ)/4) ≠ -1 := by
  constructor
  · unfold engagementScore
    rw [if_neg (by norm_num), if_neg (by norm_num)]
    rw [show weightedDelta 5 5 0 0 0 0 0 0 0 = -1/4 by
      unfold weightedDelta; push_cast; norm_num]
    rw [round2_neg_quarter]
    unfold greatestQ leastQ
    norm_num
  · norm_num

/-- Claim C6 amended: the score is 0 when every window has zero views, -1
when the two most recent windows (months 2 and 3) have zero views while the
oldest does not — so (5,0,0) is the stalled shape, not (5,5,0) — and in the
remaining cases it is the weighted normalized delta (weights 0.2/0.5 on view
deltas, 0.1/0.3 on time-spent deltas, 0.1/0.3 on reading-rate deltas,
divided by total views), rounded to two decimals and clamped to [-1, 1]; the
result always lies in [-1, 1]. -/
theorem C6_amended_score_cases :
    (∀ t1 t2 t3 r1 r2 r3 : ℚ, engagementScore 0 0 0 t1 t2 t3 r1 r2 r3 = 0) ∧
    (∀ (v1 : ℕ) (t1 t2 t3 r1 r2 r3 : ℚ), v1 ≠ 0 →
      engagementScore v1 0 0 t1 t2 t3 r1 r2 r3 = -1) ∧
    (∀ (v1 v2 v3 : ℕ) (t1 t2 t3 r1 r2 r3 : ℚ),
      ¬ (v1 = 0 ∧ v2 = 0) → ¬ (v2 = 0 ∧ v3 = 0) →
      engagementScore v1 v2 v3 t1 t2 t3 r1 r2 r3 =
        leastQ 1 (greatestQ (-1) (round2 (weightedDelta v1 v2 v3 t1 t2 t3 r1 r2 r3)))) ∧
    (∀ (v1 v2 v3 : ℕ) (t1 t2 t3 r1 r2 r3 : ℚ),
      -1 ≤ engagementScore v1 v2 v3 t1 t2 t3 r1 r2 r3 ∧
      engagementScore v1 v2 v3 t1 t2 t3 r1 r2 r3 ≤ 1) := by
  refine ⟨?_, ?_, ?_, ?_⟩
  · intro t1 t2 t3 r1 r2 r3
    unfold engagementScore
    rw [if_pos ⟨rfl, rfl⟩]
  · intro v1 t1 t2 t3 r1 r2 r3 hv1
    unfold engagementScore
    rw [if_neg (by simp [hv1]), if_pos ⟨rfl, rfl⟩]
  · intro v1 v2 v3 t1 t2 t3 r1 r2 r3 h1 h2
    unfold engagementScore
    rw [if_neg h1, if_neg h2]
  · intro v1 v2 v3 t1 t2 t3 r1 r2 r3
    unfold engagementScore
    split_ifs with h1 h2
    · norm_num
    · norm_num
    · exact leastQ_greatestQ_bounds _

/-- Witness for the amended C6 theorem at concrete windows. -/
theorem C6_amended_score_cases_witness :
    engagementScore 0 0 0 3 1 4 1 5 9 = 0 ∧
    engagementScore 4 0 0 1 1 1 1 1 1 = -1 ∧
    engagementScore 1 2 3 0 0 0 0 0 0 =
      leastQ 1 (greatestQ (-1) (round2 (weightedDelta 1 2 3 0 0 0 0 0 0))) ∧
    -1 ≤ engagementScore 7 8 9 1 2 3 4 5 6 :=
  ⟨C6_amended_score_cases.1 3 1 4 1 5 9,
   C6_amended_score_cases.2.1 4 1 1 1 1 1 1 (by decide),
   C6_amended_score_cases.2.2.1 1 2 3 0 0 0 0 0 0 (by decide) (by decide),
   (C6_amended_score_cases.2.2.2 7 8 9 1 2 3 4 5 6).1⟩

/-- Claim C10: whenever the two oldest monthly windows have zero views the
score is 0, even when the most recent window has strictly positive views:
the first WHEN arm tests only views_month_1 = 0 and views_month_2 = 0
(its views_month_3 >= 0 conjunct is vacuous). -/
theorem C10_zero_oldest_windows_score_zero (v3 : ℕ) (t1 t2 t3 r1 r2 r3 : ℚ)
    (h : 0 < v3) : engagementScore 0 0 v3 t1 t2 t3 r1 r2 r3 = 0 := by
  unfold engagementScore
  rw [if_pos ⟨rfl, rfl⟩]

/-- Witness for C10 at a concrete recent window of 7 views. -/
theorem C10_witness : 0 < 7 ∧ engagementScore 0 0 7 1 2 3 4 5 6 = 0 :=
  ⟨by decide, C10_zero_oldest_windows_score_zero 7 1 2 3 4 5 6 (by decide)⟩

/-- Claim C5 is false on the code: with a geo database whose lookup errors,
a batch holding a lead event that triggers the lookup followed by a second,
well-formed event does not continue past the failure — getIpLocation calls
log.Fatal, terminating the process, so the batch computation ends in the
error state instead of nacking the failing message and processing the rest. -/
theorem C5_counterexample :
    processLeadBatch geoDbFailing [some sampleLeadMsg, some sampleLeadMsgNoIp] =
      .error () ∧
    (processLeadBatch geoDbFailing [some sampleLeadMsg, some sampleLeadMsgNoIp]).isOk
      = false := by
  constructor <;> rfl

/-- Claim C5 amended: a geo-IP lookup error is fatal to the whole process
(log.Fatal): the failing message is not nacked and the remaining messages of
the batch are never processed; only json unmarshalling (and metas
marshalling) failures are handled per message by logging, nacking just that
message and continuing with the rest of the batch. -/
theorem C5_amended_lookup_failure_fatal :
    (∀ (geoDb : String → Option IPLocation) (d : LeadEventDataPubSub)
       (rest : List (Option LeadEventDataPubSub)),
       d.name ≠ "page_behavior" → d.ip ≠ "" → geoDb d.ip = none →
       processLeadBatch geoDb (some d :: rest) = .error ()) ∧
    (∀ (geoDb : String → Option IPLocation)
       (rest : List (Option LeadEventDataPubSub)),
       processLeadBatch geoDb (none :: rest) =
         (processLeadBatch geoDb rest).map fun p => (p.1, p.2 + 1)) := by
  constructor
  · intro geoDb d rest hname hip hgeo
    have hm : processLeadMessage geoDb (some d) = LeadMsgStep.fatalLookup := by
      simp only [processLeadMessage, getIpLocation, hgeo]
      rw [if_pos ⟨hname, hip⟩]
    simp only [processLeadBatch, hm]
  · intro geoDb rest
    rfl

/-- Witness for the amended C5 theorem: the failing lookup on a concrete
batch of one message, and the nack-and-continue unmarshal path. -/
theorem C5_amended_witness :
    processLeadBatch geoDbFailing [some sampleLeadMsg] = .error () ∧
    processLeadBatch geoDbParis [none] =
      (processLeadBatch geoDbParis []).map (fun p => (p.1, p.2 + 1)) :=
  ⟨C5_amended_lookup_failure_fatal.1 geoDbFailing sampleLeadMsg []
      (by decide) (by decide) rfl,
   C5_amended_lookup_failure_fatal.2 geoDbParis []⟩

/-- Claim C9: a message published by the collector for an event with the
consent flag unset, or with an empty client IP, carries an empty IP field,
so the consumer never performs the geo lookup for it (the staged row is the
same for every geo database) and the staged analytical row has empty
location_country and location_city. -/
theorem C9_consent_skips_lookup (geoDb : String → Option IPLocation)
    (d : LeadEventDataPubSub) (requestIp : String)
    (h : d.consent = false ∨ requestIp = "") :
    processLeadMessage geoDb (some (publishedLeadEvent d requestIp)) =
      .staged (mkLeadEventRow (publishedLeadEvent d requestIp) "" "") ∧
    (mkLeadEventRow (publishedLeadEvent d requestIp) "" "").location_country = "" ∧
    (mkLeadEventRow (publishedLeadEvent d requestIp) "" "").location_city = "" := by
  have hip : (publishedLeadEvent d requestIp).ip = "" := by
    unfold publishedLeadEvent collectClientIp
    rcases h with h | h <;> simp [h]
  refine ⟨?_, rfl, rfl⟩
  simp [processLeadMessage, hip]

/-- Witness for C9: the no-consent sample event published with a real client
IP against a geo database that would resolve it, were it consulted. -/
theorem C9_witness :
    processLeadMessage geoDbParis
        (some (publishedLeadEvent sampleLeadMsgNoConsent "9.9.9.9")) =
      .staged (mkLeadEventRow (publishedLeadEvent sampleLeadMsgNoConsent "9.9.9.9") "" "") :=
  (C9_consent_skips_lookup geoDbParis sampleLeadMsgNoConsent "9.9.9.9" (Or.inl rfl)).1


/-- Claim C1 is false on the code: delivering a staged page (and user)
message with a failing relational commit and a succeeding analytical insert
still hands the staged row to the analytical bulk inserter, appends it, and
acknowledges the message — the commit error is only logged, nothing is
aborted and no staged message is negatively acknowledged. -/
theorem C1_counterexample :
    deliverPageMessage localeBaseEn detectEn true true false true
        (some samplePageMsg) none =
      { db := none, stagedRows := [samplePageMsg], appended := [samplePageMsg],
        ack := .acked } ∧
    deliverUserMessage true true false true (some sampleUserMsg) none =
      { db := none, stagedRows := [sampleUserMsg], appended := [sampleUserMsg],
        ack := .acked } := by
  constructor <;> rfl

/-- Claim C1 amended: in both the page and the user consumer, a relational
commit failure is only logged; the analytical bulk insert still receives
every staged row, staged messages are acknowledged exactly when the
analytical insert succeeds, and no staged message is ever negatively
acknowledged in the batch tail.  The page consumer loses its relational
effect on commit failure, while the user consumer's UPDATE path ran through
db.Exec outside the transaction and survives the failed commit. -/
theorem C1_amended_commit_failure_ignored :
    (∀ (parseLocaleBase : String → Option String) (detectLang : String → String)
       (lookupOk txExecOk bqOk : Bool) (payload : Option PageDataPubSub)
       (dbRow : Option PageData) (isInsert : Bool) (newRow : PageData)
       (d : PageDataPubSub),
       decidePageMessage parseLocaleBase detectLang lookupOk txExecOk payload dbRow =
         .staged isInsert newRow d →
       deliverPageMessage parseLocaleBase detectLang lookupOk txExecOk false bqOk
           payload dbRow =
         { db := dbRow, stagedRows := [d],
           appended := if bqOk then [d] else [],
           ack := if bqOk then .acked else .leftPending }) ∧
    (∀ (lookupOk execOk bqOk : Bool) (payload : Option UserDataPubSub)
       (dbRow : Option UserData) (newRow : UserData) (d : UserDataPubSub),
       decideUserMessage lookupOk execOk payload dbRow = .staged true newRow d →
       deliverUserMessage lookupOk execOk false bqOk payload dbRow =
         { db := dbRow, stagedRows := [d],
           appended := if bqOk then [d] else [],
           ack := if bqOk then .acked else .leftPending }) ∧
    (∀ (lookupOk execOk bqOk : Bool) (payload : Option UserDataPubSub)
       (dbRow : Option UserData) (newRow : UserData) (d : UserDataPubSub),
       decideUserMessage lookupOk execOk payload dbRow = .staged false newRow d →
       deliverUserMessage lookupOk execOk false bqOk payload dbRow =
         { db := some newRow, stagedRows := [d],
           appended := if bqOk then [d] else [],
           ack := if bqOk then .acked else .leftPending }) ∧
    (∀ bqOk : Bool,
      (if bqOk then AckStatus.acked else AckStatus.leftPending) ≠ AckStatus.nacked) := by
  refine ⟨?_, ?_, ?_, ?_⟩
  · intro parseLocaleBase detectLang lookupOk txExecOk bqOk payload dbRow
      isInsert newRow d hstage
    unfold deliverPageMessage
    rw [hstage]
    rfl
  · intro lookupOk execOk bqOk payload dbRow newRow d hstage
    unfold deliverUserMessage
    rw [hstage]
    rfl
  · intro lookupOk execOk bqOk payload dbRow newRow d hstage
    unfold deliverUserMessage
    rw [hstage]
    rfl
  · intro bqOk
    cases bqOk <;> simp

/-- Witness for the amended C1 theorem: the concrete staged insert messages
of the counterexample, with a failing analytical insert this time. -/
theorem C1_amended_witness :
    deliverPageMessage localeBaseEn detectEn true true false false
        (some samplePageMsg) none =
      { db := none, stagedRows := [samplePageMsg], appended := [],
        ack := .leftPending } ∧
    deliverUserMessage true true false false (some sampleUserMsg) none =
      { db := none, stagedRows := [sampleUserMsg], appended := [],
        ack := .leftPending } :=
  ⟨C1_amended_commit_failure_ignored.1 localeBaseEn detectEn true true false
      (some samplePageMsg) none true (pageRowFromMsg samplePageMsg) samplePageMsg rfl,
   C1_amended_commit_failure_ignored.2.1 true true false (some sampleUserMsg) none
      (userRowFromMsg sampleUserMsg) sampleUserMsg rfl⟩

/-- Claim C2 is false on the code in its acknowledgement part: redelivering
a page message identical to the stored row takes the no-change branch, which
only logs — the message is neither acknowledged nor negatively acknowledged. -/
theorem C2_counterexample :
    (deliverPageMessage localeBaseEn detectEn true true true true
        (some samplePageMsg) (some (pageRowFromMsg samplePageMsg))).ack =
      .leftPending ∧
    AckStatus.leftPending ≠ AckStatus.acked := by
  exact ⟨rfl, by simp⟩

/-- Claim C2 amended: a Page message whose key matches an existing
relational row with an equal modification date performs no relational write
and no analytical append, but the message is left unacknowledged rather than
acknowledged (the broker will redeliver it after the ack deadline);
consequently delivering the same valid Page message twice against an
initially absent row yields exactly one relational row and exactly one
analytical row, the second delivery writing nothing. -/
theorem C2_amended_idempotent_but_unacked (parseLocaleBase : String → Option String)
    (detectLang : String → String) (d : PageDataPubSub) (base : String)
    (hl : parseLocaleBase d.language = some base)
    (hd : detectLang d.content = base) :
    deliverPageMessage parseLocaleBase detectLang true true true true (some d) none =
      { db := some (pageRowFromMsg d), stagedRows := [d], appended := [d],
        ack := .acked } ∧
    deliverPageMessage parseLocaleBase detectLang true true true true (some d)
        (some (pageRowFromMsg d)) =
      { db := some (pageRowFromMsg d), stagedRows := [], appended := [],
        ack := .leftPending } := by
  have hdec : ∀ dbRow : Option PageData,
      decidePageMessage parseLocaleBase detectLang true true (some d) dbRow =
        (match dbRow with
         | none => PageAction.staged true (pageRowFromMsg d) d
         | some page =>
           if page.modification_date ≠ d.modification_date then
             PageAction.staged false (applyPageUpdate page d) d
           else PageAction.noOpSilent) := by
    intro dbRow
    simp only [decidePageMessage, hl, hd]
    cases dbRow <;> simp
  constructor
  · unfold deliverPageMessage
    rw [hdec none]
    rfl
  · unfold deliverPageMessage
    rw [hdec (some (pageRowFromMsg d))]
    simp [pageRowFromMsg]

/-- Witness for the amended C2 theorem at the sample page message. -/
theorem C2_amended_witness :
    deliverPageMessage localeBaseEn detectEn true true true true
        (some samplePageMsg) none =
      { db := some (pageRowFromMsg samplePageMsg), stagedRows := [samplePageMsg],
        appended := [samplePageMsg], ack := .acked } ∧
    deliverPageMessage localeBaseEn detectEn true true true true
        (some samplePageMsg) (some (pageRowFromMsg samplePageMsg)) =
      { db := some (pageRowFromMsg samplePageMsg), stagedRows := [],
        appended := [], ack := .leftPending } :=
  C2_amended_idempotent_but_unacked localeBaseEn detectEn samplePageMsg "en" rfl rfl


/-- A buffer that just received a message is never empty. -/
theorem append_singleton_isEmpty {α : Type} (xs : List α) (m : α) :
    (xs ++ [m]).isEmpty = false := by
  cases xs <;> rfl

/-- Folding AddMessage while staying strictly below the size threshold only
extends the buffer. -/
theorem foldl_AddMessage_below {α : Type} (msgs : List α) (bp : BatchProcessor α)
    (h : bp.messages.length + msgs.length < bp.maxBatchSize) :
    msgs.foldl AddMessage bp =
      { messages := bp.messages ++ msgs, maxBatchSize := bp.maxBatchSize,
        flushed := bp.flushed } := by
  induction msgs generalizing bp with
  | nil => simp
  | cons m rest ih =>
    simp only [List.length_cons] at h
    have hadd : AddMessage bp m =
        { messages := bp.messages ++ [m], maxBatchSize := bp.maxBatchSize,
          flushed := bp.flushed } := by
      simp only [AddMessage]
      rw [if_neg]
      simp only [List.length_append, List.length_cons, List.length_nil]
      omega
    have hih := ih
      { messages := bp.messages ++ [m], maxBatchSize := bp.maxBatchSize,
        flushed := bp.flushed }
      (by simp only [List.length_append, List.length_cons, List.length_nil]; omega)
    show List.foldl AddMessage (AddMessage bp m) rest = _
    rw [hadd, hih]
    simp

/-- Folding AddMessage until the buffer exactly reaches the threshold ends
in a synchronous flush of the accumulated batch. -/
theorem foldl_AddMessage_reach {α : Type} (msgs : List α) (bp : BatchProcessor α)
    (hne : msgs ≠ [])
    (h : bp.messages.length + msgs.length = bp.maxBatchSize) :
    msgs.foldl AddMessage bp =
      { messages := [], maxBatchSize := bp.maxBatchSize,
        flushed := bp.flushed ++ [bp.messages ++ msgs] } := by
  induction msgs generalizing bp with
  | nil => cases hne rfl
  | cons m rest ih =>
    simp only [List.length_cons] at h
    cases rest with
    | nil =>
      show List.foldl AddMessage (AddMessage bp m) [] = _
      simp only [List.foldl_nil, AddMessage]
      rw [if_pos]
      · unfold processBatchFlush
        rw [if_neg (by simp [append_singleton_isEmpty])]
      · simp only [List.length_append, List.length_cons, List.length_nil] at h ⊢
        omega
    | cons m2 rest2 =>
      have hadd : AddMessage bp m =
          { messages := bp.messages ++ [m], maxBatchSize := bp.maxBatchSize,
            flushed := bp.flushed } := by
        simp only [AddMessage]
        rw [if_neg]
        simp only [List.length_append, List.length_cons, List.length_nil] at h ⊢
        omega
      have hih := ih
        { messages := bp.messages ++ [m], maxBatchSize := bp.maxBatchSize,
          flushed := bp.flushed }
        (by simp)
        (by simp only [List.length_append, List.length_cons, List.length_nil] at h ⊢; omega)
      show List.foldl AddMessage (AddMessage bp m) (m2 :: rest2) = _
      rw [hadd, hih]
      simp

/-- Claim C7: from a fresh accumulator, adding exactly maxBatchSize messages
with no tick flushes them synchronously as one batch and empties the buffer;
adding fewer than maxBatchSize messages and then letting the timer fire
flushes the non-empty partial batch exactly once; a tick on an empty buffer
flushes nothing. -/
theorem C7_flush_triggers :
    (∀ (α : Type) (maxSize : ℕ) (msgs : List α),
      0 < maxSize → msgs.length = maxSize →
      msgs.foldl AddMessage (NewBatchProcessor α maxSize) =
        { messages := [], maxBatchSize := maxSize, flushed := [msgs] }) ∧
    (∀ (α : Type) (maxSize : ℕ) (msgs : List α),
      msgs ≠ [] → msgs.length < maxSize →
      timerTick (msgs.foldl AddMessage (NewBatchProcessor α maxSize)) =
        { messages := [], maxBatchSize := maxSize, flushed := [msgs] }) ∧
    (∀ (α : Type) (maxSize : ℕ),
      timerTick (NewBatchProcessor α maxSize) = NewBatchProcessor α maxSize) := by
  refine ⟨?_, ?_, ?_⟩
  · intro α maxSize msgs hpos hlen
    rw [foldl_AddMessage_reach msgs (NewBatchProcessor α maxSize)
        (by intro hnil; rw [hnil] at hlen; simp at hlen; omega)
        (by simp [NewBatchProcessor, hlen])]
    simp [NewBatchProcessor]
  · intro α maxSize msgs hne hlen
    rw [foldl_AddMessage_below msgs (NewBatchProcessor α maxSize)
        (by simp [NewBatchProcessor, hlen])]
    unfold timerTick
    rw [if_pos (by simp [NewBatchProcessor, List.length_pos_iff_ne_nil, hne])]
    unfold processBatchFlush
    rw [if_neg (by simp [NewBatchProcessor, List.isEmpty_iff, hne])]
    simp [NewBatchProcessor]
  · intro α maxSize
    unfold timerTick
    rw [if_neg (by simp [NewBatchProcessor])]

/-- Witness for C7 on concrete natural-number messages. -/
theorem C7_witness :
    ([10, 20] : List ℕ).foldl AddMessage (NewBatchProcessor ℕ 2) =
      { messages := [], maxBatchSize := 2, flushed := [[10, 20]] } ∧
    timerTick (([7] : List ℕ).foldl AddMessage (NewBatchProcessor ℕ 3)) =
      { messages := [], maxBatchSize := 3, flushed := [[7]] } ∧
    timerTick (NewBatchProcessor ℕ 5) = NewBatchProcessor ℕ 5 :=
  ⟨C7_flush_triggers.1 ℕ 2 [10, 20] (by decide) (by decide),
   C7_flush_triggers.2.1 ℕ 3 [7] (by decide) (by decide),
   C7_flush_triggers.2.2 ℕ 5⟩

/-- Flushing moves the buffer wholesale into the batch history, preserving
the concatenation of flushed batches and buffer. -/
theorem processBatchFlush_partition {α : Type} (bp : BatchProcessor α) :
    (processBatchFlush bp).flushed.flatten ++ (processBatchFlush bp).messages =
      bp.flushed.flatten ++ bp.messages := by
  unfold processBatchFlush
  split_ifs with hterm
  · rfl
  · simp

/-- After a timer tick the buffer is always empty. -/
theorem timerTick_messages_eq_nil {α : Type} (bp : BatchProcessor α) :
    (timerTick bp).messages = [] := by
  cases hm : bp.messages with
  | nil => simp [timerTick, hm]
  | cons x xs => simp [timerTick, processBatchFlush, hm]

/-- Each accumulator step preserves the partition invariant: the flushed
batches followed by the buffer always spell out the messages added so far. -/
theorem accStep_partition {α : Type} (bp : BatchProcessor α) (e : AccEvent α) :
    (accStep bp e).flushed.flatten ++ (accStep bp e).messages =
      bp.flushed.flatten ++ bp.messages ++ addedMessages [e] := by
  cases e with
  | add m =>
    show (AddMessage bp m).flushed.flatten ++ (AddMessage bp m).messages = _
    simp only [AddMessage]
    split_ifs with h
    · rw [processBatchFlush_partition]
      simp [addedMessages]
    · simp [addedMessages]
  | tick =>
    show (timerTick bp).flushed.flatten ++ (timerTick bp).messages = _
    simp only [timerTick]
    split_ifs with h
    · rw [processBatchFlush_partition]
      simp [addedMessages]
    · simp [addedMessages]

/-- Splitting the added messages of an event sequence at its head. -/
theorem addedMessages_cons {α : Type} (e : AccEvent α) (rest : List (AccEvent α)) :
    addedMessages (e :: rest) = addedMessages [e] ++ addedMessages rest := by
  cases e <;> simp [addedMessages]

/-- A trailing timer tick adds no message. -/
theorem addedMessages_append_tick {α : Type} (es : List (AccEvent α)) :
    addedMessages (es ++ [AccEvent.tick]) = addedMessages es := by
  simp [addedMessages]

/-- The partition invariant holds along any run of the accumulator. -/
theorem runAcc_partition {α : Type} (es : List (AccEvent α)) (bp : BatchProcessor α) :
    (runAcc bp es).flushed.flatten ++ (runAcc bp es).messages =
      bp.flushed.flatten ++ bp.messages ++ addedMessages es := by
  induction es generalizing bp with
  | nil => simp [runAcc, addedMessages]
  | cons e rest ih =>
    show (runAcc (accStep bp e) rest).flushed.flatten ++
        (runAcc (accStep bp e) rest).messages = _
    rw [ih, accStep_partition]
    cases e <;> simp [addedMessages]

/-- Claim C8: for any interleaving of AddMessage calls and timer ticks on
one accumulator, the flushed batches concatenate to a prefix of the added
messages with the buffer holding exactly the rest (no message lost, none
duplicated), and after a final timer tick the flushed batches partition
exactly the full input sequence in order. -/
theorem C8_batches_partition_input :
    ∀ (α : Type) (maxSize : ℕ) (es : List (AccEvent α)),
      (runAcc (NewBatchProcessor α maxSize) es).flushed.flatten ++
        (runAcc (NewBatchProcessor α maxSize) es).messages = addedMessages es ∧
      (runAcc (NewBatchProcessor α maxSize) (es ++ [AccEvent.tick])).messages = [] ∧
      (runAcc (NewBatchProcessor α maxSize) (es ++ [AccEvent.tick])).flushed.flatten =
        addedMessages es := by
  intro α maxSize es
  have hbase : ∀ fs : List (AccEvent α),
      (runAcc (NewBatchProcessor α maxSize) fs).flushed.flatten ++
        (runAcc (NewBatchProcessor α maxSize) fs).messages = addedMessages fs := by
    intro fs
    rw [runAcc_partition fs (NewBatchProcessor α maxSize),
      show (NewBatchProcessor α maxSize).flushed.flatten = [] from rfl,
      show (NewBatchProcessor α maxSize).messages = [] from rfl]
    simp
  have hmsgs : (runAcc (NewBatchProcessor α maxSize) (es ++ [AccEvent.tick])).messages
      = [] := by
    have htail : runAcc (NewBatchProcessor α maxSize) (es ++ [AccEvent.tick]) =
        timerTick (runAcc (NewBatchProcessor α maxSize) es) := by
      simp [runAcc, List.foldl_append, accStep]
    rw [htail]
    exact timerTick_messages_eq_nil _
  refine ⟨hbase es, hmsgs, ?_⟩
  have h2 := hbase (es ++ [AccEvent.tick])
  rw [hmsgs, List.append_nil, addedMessages_append_tick] at h2
  exact h2
